import Mathlib

/-!
Shallow embedding of `src/keyrx_tray/keyrx-tray.py` (KeyRx system tray client).

The embedding models the state-synchronization core of the tray application:
the transport helpers `api_get` / `api_post` / `mock_api_response`, the polling
handler `update_status`, the profile-menu refresh `update_profiles`, and the
user-command handlers `on_toggle_remapping` / `on_switch_profile`.

Modelling conventions:
- A JSON dict returned by the daemon API is modelled by `ApiDict`, restricted
  to the keys the program reads, plus an `extraKeys` flag recording whether the
  dict holds any other key (needed for Python truthiness of the dict).
- A network interaction is modelled by its outcome (`GetOutcome` /
  `PostOutcome`): a raised exception (network error or timeout) or an HTTP
  response. `requests.Response.raise_for_status` raises exactly for status
  codes in `[400, 600)`; a body that fails JSON parsing is `none`.
- The GTK widgets the program stores daemon state in are modelled as fields of
  `TrayState`: `toggle_active` is the checked state of the "Enable Remapping"
  `CheckMenuItem` (written by each successful poll and by the failure-revert
  path, read back by `widget.get_active()`), `status_label` and `icon` mirror
  the status menu item and indicator icon, and `profile_items` holds the
  profile entries of the submenu (after the fixed refresh button / separator).
  Toolkit signal dispatch itself is out of scope; `set_active` is modelled as
  a plain field update.
- The module-level configuration block (lines 24-28) is modelled by
  `loadConfig` over an abstract environment `String → Option String`.
-/

/-- One entry of the daemon's profiles JSON array: `{"name": ..., "active": ...}`.
`name` is accessed with `profile["name"]` (required); `active` is read with
`profile.get("active", False)`, hence optional. -/
structure ProfileJson where
  name : String
  active : Option Bool := none
deriving Repr, DecidableEq

/-- A profile `CheckMenuItem` appended to the profiles submenu. -/
structure MenuEntry where
  name : String
  active : Bool
deriving Repr, DecidableEq

/-- A JSON object returned by the daemon API, restricted to the keys the
program reads; `extraKeys` records whether the dict has any further key,
so that Python truthiness (`if status:`) is representable. -/
structure ApiDict where
  running : Option Bool := none
  version : Option String := none
  profile : Option String := none
  remapping_enabled : Option Bool := none
  profiles : Option (List ProfileJson) := none
  extraKeys : Bool := false
deriving Repr, DecidableEq

/-- Python truthiness of the dict: `{}` is falsy, any non-empty dict truthy. -/
def ApiDict.isEmptyDict (d : ApiDict) : Bool :=
  d.running.isNone && d.version.isNone && d.profile.isNone &&
  d.remapping_enabled.isNone && d.profiles.isNone && !d.extraKeys

/-- Outcome of a `requests.get` call: a raised network error, a raised
timeout, or an HTTP response with a status code and a body (`none` when the
body is not parseable JSON, in which case `response.json()` raises). -/
inductive GetOutcome where
  | netError
  | timeout
  | response (status : Nat) (body : Option ApiDict)
deriving Repr, DecidableEq

/-- Outcome of a `requests.post` call (the body is never read). -/
inductive PostOutcome where
  | netError
  | timeout
  | response (status : Nat)
deriving Repr, DecidableEq

/-- `requests.Response.raise_for_status` raises `HTTPError` exactly for
status codes in `[400, 600)`. -/
def raiseForStatus (status : Nat) : Bool :=
  (400 ≤ status) && (status < 600)

/-- The mutable state of the `KeyRxTray` object, including the GTK widgets it
stores daemon state in. Defaults are the values set in `__init__` /
`build_menu`. -/
structure TrayState where
  daemon_running : Bool := false
  current_profile : Option String := none
  remapping_enabled : Bool := true
  toggle_active : Bool := true
  status_label : String := "Status: Checking..."
  icon : String := "input-keyboard"
  profiles_loaded : Bool := false
  profile_items : List MenuEntry := []
  no_profiles_item : Bool := false
deriving Repr, DecidableEq

/-- The state of a freshly constructed `KeyRxTray`. -/
def initState : TrayState := {}

/-- `KeyRxTray.mock_api_response` (lines 145-162): canned responses for
`/api/status` and `/api/profiles`, the empty dict for any other endpoint. -/
def mock_api_response (st : TrayState) (endpoint : String) : ApiDict :=
  if endpoint = "/api/status" then
    { running := some true
      version := some "0.1.0"
      profile := some "default"
      remapping_enabled := some st.remapping_enabled }
  else if endpoint = "/api/profiles" then
    { profiles := some
        [ { name := "default", active := some true }
        , { name := "gaming", active := some false }
        , { name := "coding", active := some false } ] }
  else {}

/-- `KeyRxTray.api_get` (lines 114-125): in mock mode, return the mock
response; otherwise perform the GET, `raise_for_status`, and return the parsed
JSON body, with every exception collapsed to `None`. -/
def api_get (mockMode : Bool) (st : TrayState) (endpoint : String)
    (o : GetOutcome) : Option ApiDict :=
  if mockMode then some (mock_api_response st endpoint)
  else
    match o with
    | .netError => none
    | .timeout => none
    | .response status body =>
      if raiseForStatus status then none else body

/-- `KeyRxTray.api_post` (lines 127-143): in mock mode, return `True`;
otherwise perform the POST and return `True` unless an exception (network
error, timeout, or `raise_for_status`) occurred. -/
def api_post (mockMode : Bool) (o : PostOutcome) : Bool :=
  if mockMode then true
  else
    match o with
    | .netError => false
    | .timeout => false
    | .response status => !raiseForStatus status

/-- Python truthiness of an `api_get` result (`if status:` /
`if not profiles_data:`): `None` and `{}` are falsy. -/
def dictTruthy : Option ApiDict → Bool
  | none => false
  | some d => !d.isEmptyDict

/-- `KeyRxTray.update_profiles` (lines 189-208): clear the profile entries
(keeping the refresh button and separator), GET `/api/profiles`, and either
append a disabled "No profiles available" item (falsy result) or append one
`CheckMenuItem` per reported profile, checked per `profile.get("active",
False)`. -/
def update_profiles (mockMode : Bool) (st : TrayState) (o : GetOutcome) :
    TrayState :=
  let cleared : TrayState :=
    { st with profile_items := [], no_profiles_item := false }
  let profiles_data := api_get mockMode st "/api/profiles" o
  if !dictTruthy profiles_data then
    { cleared with no_profiles_item := true }
  else
    let d := profiles_data.getD {}
    { cleared with
        profile_items :=
          (d.profiles.getD []).map
            (fun p => { name := p.name, active := p.active.getD false }) }

/-- `KeyRxTray.update_status` (lines 164-187): GET `/api/status`; on a truthy
result mark the daemon running, set the displayed profile (default
`"Unknown"`), the toggle state (default `True`) and the icon, and fetch the
profile list if `_profiles_loaded` is not yet set; on a falsy result mark the
daemon not running and leave the other fields alone. The returned flag
records whether `update_profiles` was invoked this tick. -/
def update_status (mockMode : Bool) (st : TrayState) (o po : GetOutcome) :
    TrayState × Bool :=
  let status := api_get mockMode st "/api/status" o
  if dictTruthy status then
    let d := status.getD {}
    let profileName := d.profile.getD "Unknown"
    let enabled := d.remapping_enabled.getD true
    let st1 : TrayState :=
      { st with
          daemon_running := true
          current_profile := some profileName
          status_label := "Profile: " ++ profileName
          toggle_active := enabled
          icon := if enabled then "input-keyboard" else "input-keyboard-symbolic" }
    if st1.profiles_loaded then (st1, false)
    else ({ update_profiles mockMode st1 po with profiles_loaded := true }, true)
  else
    ({ st with
        daemon_running := false
        status_label := "Status: Daemon not running"
        icon := "input-keyboard-symbolic" }, false)

/-- Result of a user-command handler: the new tray state, the number of POST
requests the handler issued, and whether the error notification was shown. -/
structure ToggleResult where
  state : TrayState
  posts : Nat
  notifiedError : Bool
deriving Repr, DecidableEq

/-- `KeyRxTray.on_toggle_remapping` (lines 210-229): read the desired value
from the widget, store it in `remapping_enabled`, POST `/api/toggle`; on
failure revert the widget (`widget.set_active(not enabled)`) and notify. -/
def on_toggle_remapping (mockMode : Bool) (st : TrayState) (o : PostOutcome) :
    ToggleResult :=
  let enabled := st.toggle_active
  let st1 : TrayState := { st with remapping_enabled := enabled }
  if api_post mockMode o then
    { state := st1, posts := 1, notifiedError := false }
  else
    { state := { st1 with toggle_active := !enabled }
      posts := 1
      notifiedError := true }

/-- A user click that toggles the "Enable Remapping" item to `desired`: GTK
flips the `CheckMenuItem` state, then the `activate` handler
`on_toggle_remapping` runs. -/
def toggleRemapping (mockMode : Bool) (st : TrayState) (desired : Bool)
    (o : PostOutcome) : ToggleResult :=
  on_toggle_remapping mockMode { st with toggle_active := desired } o

/-- Result of `on_switch_profile`: the new tray state, the tray state at the
moment the POST was issued, the number of POST requests, and whether the
error notification was shown. -/
structure SwitchResult where
  state : TrayState
  stateAtSend : TrayState
  posts : Nat
  notifiedError : Bool
deriving Repr, DecidableEq

/-- `KeyRxTray.on_switch_profile` (lines 231-246): POST
`/api/profiles/activate` first (the state is untouched at that moment); on
success set `current_profile` and refresh the profile list; on failure leave
the state unchanged and notify. -/
def on_switch_profile (mockMode : Bool) (st : TrayState)
    (profile_name : String) (o : PostOutcome) (po : GetOutcome) :
    SwitchResult :=
  if api_post mockMode o then
    let st1 : TrayState := { st with current_profile := some profile_name }
    { state := update_profiles mockMode st1 po
      stateAtSend := st
      posts := 1
      notifiedError := false }
  else
    { state := st, stateAtSend := st, posts := 1, notifiedError := true }

/-- The module-level configuration block (lines 24-28). -/
structure Config where
  daemon_api_base : String
  web_ui_url : String
  mock_mode : Bool
  update_interval : Nat
deriving Repr, DecidableEq

/-- Lines 24-28: `DAEMON_API_BASE`, `WEB_UI_URL` and `MOCK_MODE` are read from
the environment with `os.getenv`; `UPDATE_INTERVAL` is the literal `5000`. -/
def loadConfig (env : String → Option String) : Config :=
  { daemon_api_base := (env "KEYRX_API_URL").getD "http://127.0.0.1:9867"
    web_ui_url := (env "KEYRX_WEB_UI").getD "http://127.0.0.1:9867"
    mock_mode := ((env "KEYRX_MOCK").getD "0") == "1"
    update_interval := 5000 }

/-- Line 53: `GLib.timeout_add(UPDATE_INTERVAL, self.update_status)` — the
polling tick period is `UPDATE_INTERVAL`. -/
def tickPeriodMs (cfg : Config) : Nat := cfg.update_interval

/-- Number of checked entries in the profiles submenu. -/
def activeCount (l : List MenuEntry) : Nat :=
  l.countP (fun e => e.active)

/-- HTTP "success" status in the standard sense (2xx). Spec-side notion, used
to compare the transport's accept set against the spec's wording. -/
def isSuccessStatus (s : Nat) : Bool :=
  (200 ≤ s) && (s < 300)

/-- Dict payload of a healthy `/api/status` response, used at concrete inputs. -/
def pollOkDict : ApiDict :=
  { running := some true, profile := some "default", remapping_enabled := some true }

/-- Dict payload of a healthy `/api/profiles` response, used at concrete inputs. -/
def profilesOkDict : ApiDict :=
  { profiles := some
      [ { name := "default", active := some true }
      , { name := "gaming", active := some false }
      , { name := "coding", active := some false } ] }

/-- `update_profiles` only rewrites the profiles submenu: every other field of
the tray state is left unchanged. -/
theorem update_profiles_frame (m : Bool) (s : TrayState) (o : GetOutcome) :
    (update_profiles m s o).daemon_running = s.daemon_running ∧
    (update_profiles m s o).current_profile = s.current_profile ∧
    (update_profiles m s o).remapping_enabled = s.remapping_enabled ∧
    (update_profiles m s o).toggle_active = s.toggle_active ∧
    (update_profiles m s o).status_label = s.status_label ∧
    (update_profiles m s o).icon = s.icon ∧
    (update_profiles m s o).profiles_loaded = s.profiles_loaded := by
  unfold update_profiles
  cases h : dictTruthy (api_get m s "/api/profiles" o) <;> simp [h]

/-- Projection form of the frame lemma, convenient for rewriting. -/
theorem update_profiles_daemon_running (m : Bool) (s : TrayState) (o : GetOutcome) :
    (update_profiles m s o).daemon_running = s.daemon_running :=
  (update_profiles_frame m s o).1

/-- Projection form of the frame lemma, convenient for rewriting. -/
theorem update_profiles_current_profile (m : Bool) (s : TrayState) (o : GetOutcome) :
    (update_profiles m s o).current_profile = s.current_profile :=
  (update_profiles_frame m s o).2.1

/-- Projection form of the frame lemma, convenient for rewriting. -/
theorem update_profiles_toggle_active (m : Bool) (s : TrayState) (o : GetOutcome) :
    (update_profiles m s o).toggle_active = s.toggle_active :=
  (update_profiles_frame m s o).2.2.2.1

/-- C1: Rollback correctness of the toggle command: starting from a snapshot
that displays remapping as enabled, executing toggleRemapping(false) while the
transport reports failure leaves the displayed remapping state enabled — its
value from before the call. -/
theorem C1_toggle_rollback (mockMode : Bool) (st : TrayState) (o : PostOutcome)
    (hen : st.toggle_active = true) (hfail : api_post mockMode o = false) :
    (toggleRemapping mockMode st false o).state.toggle_active = true := by
  simp [toggleRemapping, on_toggle_remapping, hfail]

theorem C1_toggle_rollback_witness :
    initState.toggle_active = true ∧
    api_post false PostOutcome.netError = false ∧
    (toggleRemapping false initState false PostOutcome.netError).state.toggle_active = true :=
  ⟨by decide, by decide,
    C1_toggle_rollback false initState PostOutcome.netError (by decide) (by decide)⟩

/-- C2 counterexample: two profile-switch commands issued in succession — the
only way two commands can be issued in the single-threaded event loop, whose
handlers block on the transport call — both perform their POST: two network
sends in total, not one, and the second is not rejected. -/
theorem C2_counterexample :
    (on_switch_profile false initState "gaming" (PostOutcome.response 200)
        (GetOutcome.response 200 (some profilesOkDict))).posts +
      (on_switch_profile false
        (on_switch_profile false initState "gaming" (PostOutcome.response 200)
          (GetOutcome.response 200 (some profilesOkDict))).state
        "coding" (PostOutcome.response 200)
        (GetOutcome.response 200 (some profilesOkDict))).posts = 2 ∧
    ¬((on_switch_profile false initState "gaming" (PostOutcome.response 200)
        (GetOutcome.response 200 (some profilesOkDict))).posts +
      (on_switch_profile false
        (on_switch_profile false initState "gaming" (PostOutcome.response 200)
          (GetOutcome.response 200 (some profilesOkDict))).state
        "coding" (PostOutcome.response 200)
        (GetOutcome.response 200 (some profilesOkDict))).posts = 1) := by
  decide

/-- C2 (amended): the code tracks no pending command and rejects nothing —
every invocation of a command handler performs exactly one POST, so two
same-kind commands perform two sends; overlap cannot arise because each
handler completes its transport call before returning to the event loop. -/
theorem C2_one_post_per_invocation (mockMode : Bool) (st : TrayState)
    (name : String) (o : PostOutcome) (po : GetOutcome) (ot : PostOutcome) :
    (on_switch_profile mockMode st name o po).posts = 1 ∧
    (on_toggle_remapping mockMode st ot).posts = 1 := by
  refine ⟨?_, ?_⟩
  · unfold on_switch_profile; split <;> rfl
  · unfold on_toggle_remapping; split <;> rfl

/-- Tray state after a successful poll showing profile "default", used at
concrete inputs. -/
def stDefaultActive : TrayState :=
  { initState with daemon_running := true, current_profile := some "default" }

/-- C3 counterexample: at the moment `/api/profiles/activate` is POSTed the
snapshot still shows the previous profile "default", not the requested
"gaming" — there is no optimistic update before the network call. -/
theorem C3_counterexample :
    (on_switch_profile false stDefaultActive "gaming" (PostOutcome.response 200)
        (GetOutcome.response 200 (some profilesOkDict))).stateAtSend.current_profile
      = some "default" ∧
    some "default" ≠ some "gaming" := by
  decide

/-- C3 (amended): the profile-switch handler performs no optimistic update:
the snapshot is unchanged at the moment of the network send; on failure the
snapshot is left exactly as it was, and only on acknowledgement is the
displayed profile set to the requested name. -/
theorem C3_no_optimistic_update (mockMode : Bool) (st : TrayState)
    (name : String) (o : PostOutcome) (po : GetOutcome) :
    (on_switch_profile mockMode st name o po).stateAtSend = st ∧
    (api_post mockMode o = false → (on_switch_profile mockMode st name o po).state = st) ∧
    (api_post mockMode o = true →
      (on_switch_profile mockMode st name o po).state.current_profile = some name) := by
  refine ⟨?_, ?_, ?_⟩
  · unfold on_switch_profile; split <;> rfl
  · intro h; simp [on_switch_profile, h]
  · intro h
    simp only [on_switch_profile, h, if_true]
    exact (update_profiles_frame mockMode
      { st with current_profile := some name } po).2.1

theorem C3_no_optimistic_update_witness :
    (on_switch_profile false stDefaultActive "gaming" (PostOutcome.response 200)
        (GetOutcome.response 200 (some profilesOkDict))).state.current_profile
      = some "gaming" ∧
    (on_switch_profile false stDefaultActive "gaming" PostOutcome.netError
        (GetOutcome.response 200 (some profilesOkDict))).state = stDefaultActive :=
  ⟨(C3_no_optimistic_update false stDefaultActive "gaming" (PostOutcome.response 200)
      (GetOutcome.response 200 (some profilesOkDict))).2.2 (by decide),
   (C3_no_optimistic_update false stDefaultActive "gaming" PostOutcome.netError
      (GetOutcome.response 200 (some profilesOkDict))).2.1 (by decide)⟩

/-- Tray state whose last successful poll showed profile "coding", used at
concrete inputs. -/
def stCoding : TrayState :=
  { initState with daemon_running := true, current_profile := some "coding" }

/-- C4: Stale-on-failure frame condition: a poll whose status fetch comes back
falsy marks the daemon not running and updates only the status label and icon;
the displayed profile, the remapping state and the profile list keep their
values from before the poll. -/
theorem C4_stale_on_failure (mockMode : Bool) (st : TrayState) (o po : GetOutcome)
    (hfail : dictTruthy (api_get mockMode st "/api/status" o) = false) :
    update_status mockMode st o po =
      ({ st with
          daemon_running := false
          status_label := "Status: Daemon not running"
          icon := "input-keyboard-symbolic" }, false) := by
  unfold update_status
  simp [hfail]

theorem C4_stale_on_failure_witness :
    dictTruthy (api_get false stCoding "/api/status" GetOutcome.netError) = false ∧
    update_status false stCoding GetOutcome.netError GetOutcome.netError =
      ({ stCoding with
          daemon_running := false
          status_label := "Status: Daemon not running"
          icon := "input-keyboard-symbolic" }, false) :=
  ⟨by decide,
   C4_stale_on_failure false stCoding GetOutcome.netError GetOutcome.netError (by decide)⟩

/-- C5 counterexample: a live POST answered with HTTP status 302 returns
`True` — the write is acknowledged although 302 is a redirection status, not
a success status. -/
theorem C5_counterexample :
    api_post false (PostOutcome.response 302) = true ∧
    isSuccessStatus 302 = false := by
  decide

/-- C5 (amended): reads collapse a network error, a timeout, a status code in
`[400, 600)` or an unparseable body to the single outcome `None`; on any other
completed response the parsed body is returned as-is. Writes return `True`
exactly when the POST completes with a status outside `[400, 600)` — so
client/server error statuses are failures, but redirection statuses are
acknowledged. -/
theorem C5_transport_collapse (st : TrayState) (endpoint : String) (s : Nat)
    (b : Option ApiDict) :
    api_get false st endpoint GetOutcome.netError = none ∧
    api_get false st endpoint GetOutcome.timeout = none ∧
    (raiseForStatus s = true →
      api_get false st endpoint (GetOutcome.response s b) = none) ∧
    api_get false st endpoint (GetOutcome.response s none) = none ∧
    (raiseForStatus s = false →
      api_get false st endpoint (GetOutcome.response s b) = b) ∧
    api_post false PostOutcome.netError = false ∧
    api_post false PostOutcome.timeout = false ∧
    api_post false (PostOutcome.response s) = !raiseForStatus s := by
  refine ⟨rfl, rfl, ?_, ?_, ?_, rfl, rfl, rfl⟩
  · intro h; simp [api_get, h]
  · simp [api_get]
  · intro h; simp [api_get, h]

theorem C5_transport_collapse_witness :
    api_get false initState "/api/status" (GetOutcome.response 404 (some pollOkDict)) = none ∧
    api_get false initState "/api/status" (GetOutcome.response 200 (some pollOkDict)) =
      some pollOkDict :=
  ⟨(C5_transport_collapse initState "/api/status" 404 (some pollOkDict)).2.2.1 (by decide),
   (C5_transport_collapse initState "/api/status" 200 (some pollOkDict)).2.2.2.2.1 (by decide)⟩

/-- First poll tick from startup, with the daemon healthy. -/
def tick1 : TrayState × Bool :=
  update_status false initState (GetOutcome.response 200 (some pollOkDict))
    (GetOutcome.response 200 (some profilesOkDict))

/-- Second poll tick: the daemon has become unreachable. -/
def tick2 : TrayState × Bool :=
  update_status false tick1.1 GetOutcome.netError
    (GetOutcome.response 200 (some profilesOkDict))

/-- Third poll tick: the daemon is reachable again. -/
def tick3 : TrayState × Bool :=
  update_status false tick2.1 (GetOutcome.response 200 (some pollOkDict))
    (GetOutcome.response 200 (some profilesOkDict))

/-- C6 counterexample: after a reachable-unreachable-reachable transition the
first successful poll does not re-fetch profiles: before the third tick the
daemon is marked not running, the third status fetch succeeds, yet
`update_profiles` is not invoked, because the `_profiles_loaded` flag set on
the first tick is never cleared. -/
theorem C6_counterexample :
    tick1.2 = true ∧
    tick2.1.daemon_running = false ∧
    dictTruthy (api_get false tick2.1 "/api/status"
      (GetOutcome.response 200 (some pollOkDict))) = true ∧
    tick3.2 = false := by
  decide

/-- C6 (amended): on a polling tick, `update_profiles` is invoked exactly when
the status fetch is truthy and no successful poll has ever completed before in
the process lifetime; the `_profiles_loaded` flag is set by the first success
and never reset, so becoming unreachable does not cause a later re-fetch. (An
explicit menu refresh invokes `update_profiles` directly, unconditionally.) -/
theorem C6_profiles_fetch_once (mockMode : Bool) (st : TrayState)
    (o po : GetOutcome) :
    (update_status mockMode st o po).2 =
      (dictTruthy (api_get mockMode st "/api/status" o) && !st.profiles_loaded) ∧
    (update_status mockMode st o po).1.profiles_loaded =
      (st.profiles_loaded || dictTruthy (api_get mockMode st "/api/status" o)) := by
  unfold update_status
  cases h : dictTruthy (api_get mockMode st "/api/status" o) <;>
    cases hl : st.profiles_loaded <;> simp [h, hl]

/-- Profiles payload carrying two active entries. -/
def twoActiveDict : ApiDict :=
  { profiles := some
      [ { name := "a", active := some true }
      , { name := "b", active := some true } ] }

/-- Tray state marked reachable, used at concrete inputs. -/
def stReachable : TrayState := { initState with daemon_running := true }

/-- C7 counterexample: a profile refresh whose payload reports two active
profiles produces a reachable snapshot whose submenu has two checked entries —
the code copies the daemon's `active` flags without enforcing uniqueness. -/
theorem C7_counterexample :
    (update_profiles false stReachable
        (GetOutcome.response 200 (some twoActiveDict))).daemon_running = true ∧
    activeCount (update_profiles false stReachable
        (GetOutcome.response 200 (some twoActiveDict))).profile_items = 2 ∧
    ¬ activeCount (update_profiles false stReachable
        (GetOutcome.response 200 (some twoActiveDict))).profile_items ≤ 1 := by
  decide

/-- The profile list a truthy profiles response carries (empty for a falsy
response), as read by `update_profiles`. -/
def payloadProfiles : Option ApiDict → List ProfileJson
  | none => []
  | some d => if d.isEmptyDict then [] else d.profiles.getD []

/-- C7 (amended): the snapshot's active-profile count mirrors the transport:
a profile refresh leaves exactly as many checked entries as the daemon's
payload has active profiles (so at most one active holds exactly when the
daemon reports at most one); the mock payload reports exactly one active
profile, and the toggle handler never touches the profile list. -/
theorem C7_active_mirrors_daemon (mockMode : Bool) (st : TrayState)
    (o : GetOutcome) (po : PostOutcome) :
    activeCount (update_profiles mockMode st o).profile_items =
      (payloadProfiles (api_get mockMode st "/api/profiles" o)).countP
        (fun p => p.active.getD false) ∧
    activeCount (update_profiles true st o).profile_items = 1 ∧
    (on_toggle_remapping mockMode st po).state.profile_items = st.profile_items := by
  refine ⟨?_, ?_, ?_⟩
  · unfold update_profiles payloadProfiles
    cases hres : api_get mockMode st "/api/profiles" o with
    | none => simp [dictTruthy, activeCount]
    | some d =>
      cases hd : d.isEmptyDict with
      | false =>
        simp [dictTruthy, hd, activeCount, List.countP_map]
        try rfl
      | true => simp [dictTruthy, hd, activeCount]
  · rfl
  · unfold on_toggle_remapping; split <;> rfl

/-- C8: mock-mode substitution: with mock mode on, both GET endpoints return
the synthesized `mock_api_response` whatever the network outcome would have
been, and POSTs are acknowledged unconditionally; the mock status payload
carries `running` / `profile` / `remapping_enabled`, the mock profiles payload
has exactly one active entry, and the mock status result is truthy (a
successful poll). -/
theorem C8_mock_mode (st : TrayState) (o op : GetOutcome) (po : PostOutcome) :
    api_get true st "/api/status" o = some (mock_api_response st "/api/status") ∧
    api_get true st "/api/profiles" op = some (mock_api_response st "/api/profiles") ∧
    api_post true po = true ∧
    (mock_api_response st "/api/status").running = some true ∧
    (mock_api_response st "/api/status").profile = some "default" ∧
    (mock_api_response st "/api/status").remapping_enabled = some st.remapping_enabled ∧
    ((mock_api_response st "/api/profiles").profiles.getD []).countP
      (fun p => p.active.getD false) = 1 ∧
    dictTruthy (api_get true st "/api/status" o) = true := by
  refine ⟨rfl, rfl, rfl, ?_, ?_, ?_, rfl, rfl⟩ <;> simp [mock_api_response]

/-- C9 counterexample: the poll interval is independent of the environment —
in particular an environment that sets a poll-interval variable still yields
5000 ms, and the interval is the constant function of the environment. -/
theorem C9_counterexample :
    (loadConfig (fun k =>
      if k == "KEYRX_POLL_INTERVAL" then some "250" else none)).update_interval = 5000 ∧
    (fun env => (loadConfig env).update_interval) = (fun _ => 5000) :=
  ⟨rfl, rfl⟩

/-- C9 (amended): `UPDATE_INTERVAL` is the fixed constant 5000 ms and is the
Scheduler's tick period, but unlike `apiBaseUrl` (`KEYRX_API_URL`) and
`mockMode` (`KEYRX_MOCK`) it is not read from the environment or any
configuration source. -/
theorem C9_fixed_interval (env : String → Option String) :
    tickPeriodMs (loadConfig env) = 5000 ∧
    (loadConfig env).update_interval = 5000 ∧
    (loadConfig (fun _ => none)).mock_mode = false ∧
    (loadConfig (fun k => if k == "KEYRX_MOCK" then some "1" else none)).mock_mode = true ∧
    (loadConfig (fun _ => none)).daemon_api_base = "http://127.0.0.1:9867" :=
  ⟨rfl, rfl, by decide, by decide, rfl⟩

/-- C10: permissive payload defaulting: a successful status fetch whose
payload is a non-empty dict is treated as a successful poll even when fields
are missing — without a `"profile"` key the displayed profile becomes
`"Unknown"`, and without a `"remapping_enabled"` key the displayed remapping
state becomes enabled; the snapshot is not marked unreachable. -/
theorem C10_permissive_defaults (mockMode : Bool) (st : TrayState)
    (o po : GetOutcome) (d : ApiDict)
    (hget : api_get mockMode st "/api/status" o = some d)
    (hne : d.isEmptyDict = false)
    (hprof : d.profile = none) (hren : d.remapping_enabled = none) :
    (update_status mockMode st o po).1.daemon_running = true ∧
    (update_status mockMode st o po).1.current_profile = some "Unknown" ∧
    (update_status mockMode st o po).1.toggle_active = true := by
  unfold update_status
  rw [hget]
  cases hl : st.profiles_loaded <;>
    simp [dictTruthy, hne, hprof, hren, hl,
      update_profiles_daemon_running, update_profiles_current_profile,
      update_profiles_toggle_active]

/-- Non-empty status payload that lacks both the `"profile"` and
`"remapping_enabled"` keys. -/
def partialDict : ApiDict := { running := some true }

theorem C10_permissive_defaults_witness :
    api_get false initState "/api/status"
      (GetOutcome.response 200 (some partialDict)) = some partialDict ∧
    (update_status false initState (GetOutcome.response 200 (some partialDict))
        GetOutcome.netError).1.daemon_running = true ∧
    (update_status false initState (GetOutcome.response 200 (some partialDict))
        GetOutcome.netError).1.current_profile = some "Unknown" ∧
    (update_status false initState (GetOutcome.response 200 (some partialDict))
        GetOutcome.netError).1.toggle_active = true :=
  ⟨by decide,
   (C10_permissive_defaults false initState
      (GetOutcome.response 200 (some partialDict)) GetOutcome.netError partialDict
      (by decide) (by decide) (by decide) (by decide)).1,
   (C10_permissive_defaults false initState
      (GetOutcome.response 200 (some partialDict)) GetOutcome.netError partialDict
      (by decide) (by decide) (by decide) (by decide)).2.1,
   (C10_permissive_defaults false initState
      (GetOutcome.response 200 (some partialDict)) GetOutcome.netError partialDict
      (by decide) (by decide) (by decide) (by decide)).2.2⟩
